import Mathlib

/-
Verification of core components of an NES emulator (nes-wasm).

The Rust sources are shallowly embedded: machine integers (u8/u16) become
Nat with explicit masking / wrapping where the source wraps, fixed-size
arrays become lists whose length is constrained by well-formedness
hypotheses, and fallible operations return a result value together with
the successor state.  Each definition mirrors one Rust function
(file and function named in its comment).
-/

namespace NES

/-! ## Controller (src/controller.rs) -/

/-- State of a standard NES controller, mirroring `struct Controller`
in controller.rs: an 8-bit button bitmap, an 8-bit serial shift
register, and the strobe flag. -/
structure Controller where
  button_state : Nat
  shift_register : Nat
  strobe : Bool
deriving DecidableEq, Repr

/-- `Controller::new` in controller.rs. -/
def Controller.new : Controller :=
  { button_state := 0, shift_register := 0, strobe := false }

/-- `Controller::set_button` in controller.rs: buttons greater than 7
are ignored; otherwise the corresponding bit of `button_state` is set
or cleared.  `!(1u8 << button)` is the 8-bit complement
`255 ^^^ (1 <<< button)`. -/
def Controller.set_button (c : Controller) (button : Nat) (pressed : Bool) : Controller :=
  if button > 7 then c
  else if pressed then
    { c with button_state := c.button_state ||| (1 <<< button) }
  else
    { c with button_state := c.button_state &&& (255 ^^^ (1 <<< button)) }

/-- `Controller::write` in controller.rs ($4016 write): on a falling
edge of the strobe bit the current button state is latched into the
shift register; while the new strobe bit is high the shift register is
continuously reloaded. -/
def Controller.write (c : Controller) (data : Nat) : Controller :=
  let new_strobe : Bool := data &&& 1 ≠ 0
  let c1 := if c.strobe ∧ ¬new_strobe then
      { c with shift_register := c.button_state }
    else c
  let c2 := { c1 with strobe := new_strobe }
  if new_strobe then { c2 with shift_register := c2.button_state } else c2

/-- `Controller::read` in controller.rs ($4016/$4017 read): while the
strobe is high the read returns bit 0 of the button state without
touching the shift register; otherwise it returns the shift register's
LSB, shifts right and fills the vacated MSB with 1. -/
def Controller.read (c : Controller) : Nat × Controller :=
  if c.strobe then (c.button_state &&& 1, c)
  else
    let value := c.shift_register &&& 1
    (value, { c with shift_register := (c.shift_register >>> 1) ||| 0x80 })

/-- Performs `n` consecutive CPU reads and collects the returned bits. -/
def Controller.reads (c : Controller) : Nat → List Nat
  | 0 => []
  | n + 1 => (c.read).1 :: (c.read).2.reads n

/-! ## Emulator state touched by save states and input
(src/emulator.rs).  The `Emulator` record collects exactly the
components that `export_state_binary` / `import_state_binary` serialize
(CPU registers, 2 KiB work RAM, the serialized PPU registers and
memories, PRG-RAM) together with the two controllers that `set_button`
addresses. -/

structure Emulator where
  cpu_a : Nat
  cpu_x : Nat
  cpu_y : Nat
  cpu_sp : Nat
  cpu_status : Nat
  cpu_pc : Nat
  bus_ram : List Nat
  ppu_ctrl : Nat
  ppu_mask : Nat
  ppu_status : Nat
  ppu_oam_addr : Nat
  ppu_v : Nat
  ppu_t : Nat
  ppu_fine_x : Nat
  ppu_write_latch : Bool
  ppu_data_buffer : Nat
  ppu_nametable : List Nat
  ppu_palette : List Nat
  ppu_oam : List Nat
  cart_prg_ram : List Nat
  ctrl1 : Controller
  ctrl2 : Controller
deriving DecidableEq, Repr

/-- The fields of `Emulator::new()` that the record above tracks
(`Cpu::new`, `Bus::new`, `Ppu::new`, `Cartridge::new`,
`Controller::new`). -/
def Emulator.new : Emulator where
  cpu_a := 0
  cpu_x := 0
  cpu_y := 0
  cpu_sp := 0xFD
  cpu_status := 0x24
  cpu_pc := 0
  bus_ram := List.replicate 2048 0
  ppu_ctrl := 0
  ppu_mask := 0
  ppu_status := 0
  ppu_oam_addr := 0
  ppu_v := 0
  ppu_t := 0
  ppu_fine_x := 0
  ppu_write_latch := false
  ppu_data_buffer := 0
  ppu_nametable := List.replicate 2048 0
  ppu_palette := List.replicate 32 0
  ppu_oam := List.replicate 256 0
  cart_prg_ram := List.replicate 8192 0
  ctrl1 := Controller.new
  ctrl2 := Controller.new

/-- `Emulator::set_button` in emulator.rs: dispatches on the controller
index, ignoring anything other than 0 and 1. -/
def Emulator.set_button (e : Emulator) (controller button : Nat) (pressed : Bool) : Emulator :=
  match controller with
  | 0 => { e with ctrl1 := e.ctrl1.set_button button pressed }
  | 1 => { e with ctrl2 := e.ctrl2.set_button button pressed }
  | _ => e

/-! ## 6502 ADC/SBC arithmetic (src/emulator.rs and src/cpu.rs)

Both implementations act on the accumulator and the 8-bit status byte.
`wsub16` is `u16::wrapping_sub` on the Nat embedding. -/

/-- `u16::wrapping_sub`. -/
def wsub16 (x y : Nat) : Nat := (x + 65536 - y % 65536) % 65536

/-- `set_carry` / `set_overflow` / `Cpu::set_flag` pattern:
`status |= mask` or `status &= !mask` on a u8 status byte. -/
def setFlagBit (s : Nat) (mask : Nat) (v : Bool) : Nat :=
  if v then s ||| mask else s &&& (255 ^^^ mask)

/-- `Emulator::set_zn` / `Cpu::update_zn`: zero flag is bit 1, negative
flag is bit 7, both driven by the result byte. -/
def set_zn (s value : Nat) : Nat :=
  setFlagBit (setFlagBit s 2 (value = 0)) 128 (value &&& 128 ≠ 0)

/-- `Emulator::op_adc` in emulator.rs, on the pair (accumulator, status
byte).  The carry-in is status bit 0; the u16 sum `a + m + c` never
exceeds 511 so no wrap occurs. -/
def op_adc (a s m : Nat) : Nat × Nat :=
  let c : Nat := if s &&& 1 ≠ 0 then 1 else 0
  let result := a + m + c
  let s1 := setFlagBit s 1 (result > 255)
  let s2 := setFlagBit s1 64 ((a ^^^ result) &&& (m ^^^ result) &&& 128 ≠ 0)
  let a1 := result % 256
  (a1, set_zn s2 a1)

/-- `Emulator::op_sbc` in emulator.rs:
`result = a.wrapping_sub(v).wrapping_sub(1 - c)` on u16, carry set when
`result < 0x100`, overflow from `(a ^ result) & (a ^ v) & 0x80`. -/
def op_sbc (a s m : Nat) : Nat × Nat :=
  let c : Nat := if s &&& 1 ≠ 0 then 1 else 0
  let result := wsub16 (wsub16 a m) (1 - c)
  let s1 := setFlagBit s 1 (result < 256)
  let s2 := setFlagBit s1 64 ((a ^^^ result) &&& (a ^^^ m) &&& 128 ≠ 0)
  let a1 := result % 256
  (a1, set_zn s2 a1)

/-- `Cpu::adc_value` in cpu.rs.  Identical carry and order of flag
updates as `op_adc`, but the overflow test is written
`(!(a ^ value) & (a ^ result)) & 0x80` with `result` the truncated
byte; `!x` on u8 is `x ^^^ 255`. -/
def adc_value (a s m : Nat) : Nat × Nat :=
  let carry : Nat := if s &&& 1 ≠ 0 then 1 else 0
  let sum := a + m + carry
  let s1 := setFlagBit s 1 (sum > 255)
  let result := sum % 256
  let s2 := setFlagBit s1 64 ((((a ^^^ m) ^^^ 255) &&& (a ^^^ result)) &&& 128 ≠ 0)
  (result, set_zn s2 result)

/-- `Cpu::sbc` in cpu.rs performs ADC of the operand's ones-complement:
`self.adc_value(value ^ 0xFF)`. -/
def cpu_sbc (a s m : Nat) : Nat × Nat := adc_value a s (m ^^^ 255)

/-! ## APU pulse-channel sweep unit (src/apu.rs) -/

/-- The fields of `struct PulseChannel` in apu.rs that participate in
`clock_sweep` / `sweep_target_period`: the channel number (1 or 2), the
11-bit timer period (held in a u16), and the sweep unit registers. -/
structure PulseChannel where
  channel : Nat
  timer_period : Nat
  sweep_enabled : Bool
  sweep_negate : Bool
  sweep_reload : Bool
  sweep_period : Nat
  sweep_shift : Nat
  sweep_divider : Nat
deriving DecidableEq, Repr

/-- `PulseChannel::sweep_target_period` in apu.rs:
`delta = period >> shift`; negate subtracts delta (pulse 1 subtracts an
extra 1, ones-complement behaviour), otherwise adds it; all on u16. -/
def PulseChannel.sweep_target_period (p : PulseChannel) : Nat :=
  let delta := p.timer_period >>> p.sweep_shift
  if p.sweep_negate then
    if p.channel = 1 then wsub16 (wsub16 p.timer_period delta) 1
    else wsub16 p.timer_period delta
  else (p.timer_period + delta) % 65536

/-- `PulseChannel::clock_sweep` in apu.rs: the write-back of the target
period happens only when the sweep divider is 0 AND the sweep is
enabled AND shift > 0 AND period ≥ 8 AND target ≤ $7FF; afterwards the
divider is reloaded (on zero or pending reload) or decremented. -/
def PulseChannel.clock_sweep (p : PulseChannel) : PulseChannel :=
  let target := p.sweep_target_period
  let p1 := if p.sweep_divider = 0 ∧ p.sweep_enabled ∧ p.sweep_shift > 0 ∧
               p.timer_period ≥ 8 ∧ target ≤ 0x7FF then
      { p with timer_period := target }
    else p
  if p1.sweep_divider = 0 ∨ p1.sweep_reload then
    { p1 with sweep_divider := p1.sweep_period, sweep_reload := false }
  else
    { p1 with sweep_divider := p1.sweep_divider - 1 }

/-- A pulse-2 channel whose sweep is enabled with shift 1, period 100
(so the target 150 is in range) but whose sweep divider is 1. -/
def pulseDividerOne : PulseChannel where
  channel := 2
  timer_period := 100
  sweep_enabled := true
  sweep_negate := false
  sweep_reload := false
  sweep_period := 3
  sweep_shift := 1
  sweep_divider := 1

/-! ## APU DMC channel (src/apu.rs) -/

/-- `struct DmcChannel` in apu.rs. -/
structure DmcChannel where
  enabled : Bool
  irq_enabled : Bool
  loop_flag : Bool
  rate_index : Nat
  timer_period : Nat
  timer_value : Nat
  output_level : Nat
  sample_address : Nat
  sample_length : Nat
  current_address : Nat
  bytes_remaining : Nat
  shift_register : Nat
  bits_remaining : Nat
  sample_buffer : Nat
  sample_buffer_empty : Bool
  silence : Bool
  irq_flag : Bool
deriving DecidableEq, Repr

/-- `DMC_RATE_TABLE` (NTSC) in apu.rs. -/
def DMC_RATE_TABLE : List Nat :=
  [428, 380, 340, 320, 286, 254, 226, 214, 190, 160, 142, 128, 106, 84, 72, 54]

/-- `DmcChannel::new` in apu.rs. -/
def DmcChannel.new : DmcChannel where
  enabled := false
  irq_enabled := false
  loop_flag := false
  rate_index := 0
  timer_period := 428
  timer_value := 0
  output_level := 0
  sample_address := 0xC000
  sample_length := 1
  current_address := 0xC000
  bytes_remaining := 0
  shift_register := 0
  bits_remaining := 8
  sample_buffer := 0
  sample_buffer_empty := true
  silence := true
  irq_flag := false

/-- `DmcChannel::write_ctrl` ($4010) in apu.rs. -/
def DmcChannel.write_ctrl (d : DmcChannel) (data : Nat) : DmcChannel :=
  let irq_enabled : Bool := data &&& 0x80 ≠ 0
  let rate_index := data &&& 0x0F
  { d with irq_enabled := irq_enabled,
           loop_flag := data &&& 0x40 ≠ 0,
           rate_index := rate_index,
           timer_period := DMC_RATE_TABLE.getD rate_index 0,
           irq_flag := if ¬irq_enabled then false else d.irq_flag }

/-- `DmcChannel::write_direct_load` ($4011) in apu.rs: the written
value is masked to 7 bits. -/
def DmcChannel.write_direct_load (d : DmcChannel) (data : Nat) : DmcChannel :=
  { d with output_level := data &&& 0x7F }

/-- `DmcChannel::write_sample_addr` ($4012) in apu.rs. -/
def DmcChannel.write_sample_addr (d : DmcChannel) (data : Nat) : DmcChannel :=
  { d with sample_address := 0xC000 + data * 64 }

/-- `DmcChannel::write_sample_length` ($4013) in apu.rs. -/
def DmcChannel.write_sample_length (d : DmcChannel) (data : Nat) : DmcChannel :=
  { d with sample_length := data * 16 + 1 }

/-- `DmcChannel::restart` in apu.rs. -/
def DmcChannel.restart (d : DmcChannel) : DmcChannel :=
  { d with current_address := d.sample_address, bytes_remaining := d.sample_length }

/-- The DMC-relevant part of the APU: the channel together with the
`dmc_read_request` mailbox that `Apu` keeps next to it. -/
structure ApuDmc where
  dmc : DmcChannel
  dmc_read_request : Option Nat
deriving DecidableEq, Repr

/-- `Apu::fetch_dmc_sample` in apu.rs. -/
def ApuDmc.fetch_dmc_sample (st : ApuDmc) : ApuDmc :=
  if st.dmc.bytes_remaining > 0 ∧ st.dmc.sample_buffer_empty then
    let ca := if st.dmc.current_address = 0xFFFF then 0x8000 else st.dmc.current_address + 1
    let br := st.dmc.bytes_remaining - 1
    let d := { st.dmc with current_address := ca, bytes_remaining := br }
    let d2 := if br = 0 then
        if d.loop_flag then d.restart
        else if d.irq_enabled then { d with irq_flag := true } else d
      else d
    { dmc := d2, dmc_read_request := some st.dmc.current_address }
  else st

/-- `Apu::clock_dmc` in apu.rs: when the timer fires, the output level
moves by ±2 inside its guards (unless silenced), the shift register
advances, and an empty bit counter reloads from the sample buffer and
triggers a fetch. -/
def ApuDmc.clock_dmc (st : ApuDmc) : ApuDmc :=
  if st.dmc.timer_value = 0 then
    let d0 := { st.dmc with timer_value := st.dmc.timer_period }
    let d1 := if ¬d0.silence then
        if d0.shift_register &&& 1 ≠ 0 then
          if d0.output_level ≤ 125 then { d0 with output_level := d0.output_level + 2 }
          else d0
        else if d0.output_level ≥ 2 then { d0 with output_level := d0.output_level - 2 }
        else d0
      else d0
    let d2 := { d1 with shift_register := d1.shift_register >>> 1,
                        bits_remaining := d1.bits_remaining - 1 }
    if d2.bits_remaining = 0 then
      let d3 := { d2 with bits_remaining := 8 }
      if d3.sample_buffer_empty then { st with dmc := { d3 with silence := true } }
      else
        ApuDmc.fetch_dmc_sample
          { st with dmc := { d3 with silence := false,
                                     shift_register := d3.sample_buffer,
                                     sample_buffer_empty := true } }
    else { st with dmc := d2 }
  else { st with dmc := { st.dmc with timer_value := st.dmc.timer_value - 1 } }

/-- `Apu::dmc_provide_sample` in apu.rs. -/
def ApuDmc.dmc_provide_sample (st : ApuDmc) (data : Nat) : ApuDmc :=
  { dmc := { st.dmc with sample_buffer := data, sample_buffer_empty := false },
    dmc_read_request := none }

/-- The DMC part of the $4015 write in `Apu::cpu_write`. -/
def ApuDmc.write_status (st : ApuDmc) (data : Nat) : ApuDmc :=
  let enabled : Bool := data &&& 0x10 ≠ 0
  let d1 : DmcChannel := { st.dmc with enabled := enabled }
  let d2 : DmcChannel := if enabled then
      (if d1.bytes_remaining = 0 then d1.restart else d1)
    else { d1 with bytes_remaining := 0 }
  { st with dmc := { d2 with irq_flag := false } }

/-- APU DMC states reachable from power-on (`Apu::new`) by register
writes ($4010-$4013, $4015), APU clock ticks that reach `clock_dmc`,
DMC sample delivery from the bus, and `Apu::reset`. -/
inductive DmcReach : ApuDmc → Prop
  | init : DmcReach ⟨DmcChannel.new, none⟩
  | write_ctrl {st} (data : Nat) : DmcReach st →
      DmcReach { st with dmc := st.dmc.write_ctrl data }
  | write_direct_load {st} (data : Nat) : DmcReach st →
      DmcReach { st with dmc := st.dmc.write_direct_load data }
  | write_sample_addr {st} (data : Nat) : DmcReach st →
      DmcReach { st with dmc := st.dmc.write_sample_addr data }
  | write_sample_length {st} (data : Nat) : DmcReach st →
      DmcReach { st with dmc := st.dmc.write_sample_length data }
  | write_status {st} (data : Nat) : DmcReach st → DmcReach (st.write_status data)
  | clock {st} : DmcReach st → DmcReach st.clock_dmc
  | provide {st} (data : Nat) : DmcReach st → DmcReach (st.dmc_provide_sample data)
  | reset {st} : DmcReach st → DmcReach ⟨DmcChannel.new, st.dmc_read_request⟩

/-! ## Master-clock tick ordering (`Emulator::clock`, src/emulator.rs)

`Emulator::clock` performs a fixed sequence of effects per master tick.
`clockEvents` records that sequence as an event trace, with one Boolean
guard per conditional branch of the source (DMA active, pending DMC
read request, APU IRQ, PPU NMI latch, PPU scanline signal, mapper IRQ).
-/

/-- Observable effects inside one `Emulator::clock` tick. -/
inductive Event where
  | ppuClock
  | dmaCycle
  | cpuStep
  | apuClock
  | dmcFetch
  | apuIrqRoute
  | mapperCpuClock
  | nmiRoute
  | scanlineSignal
  | mapperResync
  | mapperIrqRoute
deriving DecidableEq, Repr

/-- Event trace of one `Emulator::clock` call, in source order:
PPU clock; on every third master tick the CPU (or DMA) step, the APU
step, DMC-fetch service, APU-IRQ routing and the mapper CPU-clock; then
NMI routing, then the scanline signal with mapper resync, then
mapper-IRQ routing. -/
def clockEvents (system_clock : Nat)
    (dma_transfer dmc_request apu_irq nmi_check scanline_irq mapper_irq : Bool) :
    List Event :=
  [Event.ppuClock]
  ++ (if system_clock % 3 = 0 then
        (if dma_transfer then [Event.dmaCycle] else [Event.cpuStep])
        ++ [Event.apuClock]
        ++ (if dmc_request then [Event.dmcFetch] else [])
        ++ (if apu_irq then [Event.apuIrqRoute] else [])
        ++ [Event.mapperCpuClock]
      else [])
  ++ (if nmi_check then [Event.nmiRoute] else [])
  ++ (if scanline_irq then [Event.scanlineSignal, Event.mapperResync] else [])
  ++ (if mapper_irq then [Event.mapperIrqRoute] else [])

/-- `a` strictly precedes `b` whenever both occur in the trace. -/
def precedes (a b : Event) (l : List Event) : Prop :=
  ∀ i j : Fin l.length, l.get i = a → l.get j = b → (i : Nat) < (j : Nat)

instance (a b : Event) (l : List Event) : Decidable (precedes a b l) := by
  unfold precedes; infer_instance

/-- The order of effects `Emulator::clock` actually produces: the PPU
pixel clock first, the CPU-or-DMA step before the APU step, then the
DMC-fetch service, APU-IRQ routing and mapper CPU-clock, and only after
that block the NMI routing, the scanline signal, the mapper resync and
the mapper-IRQ routing. -/
def clockTraceOrdered (l : List Event) : Prop :=
  l.head? = some Event.ppuClock ∧
  precedes Event.ppuClock Event.cpuStep l ∧
  precedes Event.ppuClock Event.dmaCycle l ∧
  precedes Event.cpuStep Event.apuClock l ∧
  precedes Event.dmaCycle Event.apuClock l ∧
  precedes Event.apuClock Event.dmcFetch l ∧
  precedes Event.apuClock Event.apuIrqRoute l ∧
  precedes Event.dmcFetch Event.apuIrqRoute l ∧
  precedes Event.apuIrqRoute Event.mapperCpuClock l ∧
  precedes Event.mapperCpuClock Event.nmiRoute l ∧
  precedes Event.cpuStep Event.nmiRoute l ∧
  precedes Event.apuClock Event.nmiRoute l ∧
  precedes Event.nmiRoute Event.scanlineSignal l ∧
  precedes Event.scanlineSignal Event.mapperResync l ∧
  precedes Event.mapperResync Event.mapperIrqRoute l ∧
  precedes Event.nmiRoute Event.mapperIrqRoute l

instance (l : List Event) : Decidable (clockTraceOrdered l) := by
  unfold clockTraceOrdered; infer_instance

/-! ## PPU sprite evaluation (`Ppu::evaluate_sprites`, src/ppu.rs)

`evaluate_sprites` runs at dot 257.  OAM holds 64 four-byte entries;
entry `i`'s Y coordinate is `oam[4*i]`.  The loop scans the 64 entries
in order, copying up to 8 hits into secondary OAM; the 9th hit sets the
sprite-overflow status bit and stops the scan.  The Rust code works in
`i16`, embedded here as `Int`. -/

/-- The in-range test of the loop body: `diff = scanline - y` and
`0 ≤ diff < sprite_height`. -/
def spriteInRange (scanline h y : Int) : Bool :=
  0 ≤ scanline - y ∧ scanline - y < h

/-- Result of `Ppu::evaluate_sprites`.  `selected` instruments which
OAM indices were copied into secondary OAM (in scan order). -/
structure EvalResult where
  sprite_count : Nat
  sprite_zero_hit_possible : Bool
  sprite_overflow : Bool
  selected : List Nat
deriving DecidableEq, Repr

/-- The scan loop of `evaluate_sprites` over the remaining OAM
indices.  Mirrors the `for i in 0..64` body: in-range entries are
copied while fewer than 8 were taken (recording whether entry 0 was
taken), and the 9th in-range entry sets the overflow bit and breaks. -/
def evalAux (scanline h : Int) (oam : List Nat) :
    List Nat → Nat → Bool → EvalResult
  | [], count, zero => ⟨count, zero, false, []⟩
  | i :: rest, count, zero =>
    if spriteInRange scanline h (oam.getD (i * 4) 0) then
      if count < 8 then
        let zero1 := if i = 0 then true else zero
        let r := evalAux scanline h oam rest (count + 1) zero1
        { r with selected := i :: r.selected }
      else ⟨count, zero, true, []⟩
    else evalAux scanline h oam rest count zero

/-- `Ppu::evaluate_sprites` in ppu.rs: the sprite height is 16 or 8
from control bit $20, and all 64 OAM entries are scanned starting from
a cleared secondary OAM. -/
def evaluate_sprites (scanline : Int) (ctrl : Nat) (oam : List Nat) : EvalResult :=
  evalAux scanline (if ctrl &&& 0x20 ≠ 0 then 16 else 8) oam (List.range 64) 0 false

/-- The selection C4 claims (stated, not from the code): the first up
to 8 OAM entries whose Y range [Y, Y+height) contains the NEXT
scanline. -/
def claimedSelection (scanline : Int) (ctrl : Nat) (oam : List Nat) : List Nat :=
  let sprite_height : Int := if ctrl &&& 0x20 ≠ 0 then 16 else 8
  ((List.range 64).filter fun i =>
    let y : Int := oam.getD (i * 4) 0
    decide (y ≤ scanline + 1 ∧ scanline + 1 < y + sprite_height)).take 8

/-- OAM with entry 0 at Y = 1 and every other byte $FF. -/
def oamEntry0AtOne : List Nat := 1 :: List.replicate 255 0xFF

/-! ## Cartridge and ROM loading (src/cartridge.rs)

The mapper object created by `create_mapper` in mappers.rs is
abstracted by its construction arguments (mapper id, PRG bank count,
CHR bank count); `load_rom` only ever replaces it wholesale. -/

/-- `enum MirrorMode` in ppu.rs. -/
inductive MirrorMode where
  | Horizontal
  | Vertical
  | SingleScreenLow
  | SingleScreenHigh
  | FourScreen
deriving DecidableEq, Repr

/-- `struct CartridgeHeader` in cartridge.rs. -/
structure CartridgeHeader where
  prg_rom_banks : Nat
  chr_rom_banks : Nat
  mapper_id : Nat
  mirror_mode : MirrorMode
  has_battery : Bool
  has_trainer : Bool
deriving DecidableEq, Repr

/-- `struct Cartridge` in cartridge.rs, with the boxed mapper object
abstracted by its `create_mapper` arguments. -/
structure Cartridge where
  header : CartridgeHeader
  prg_rom : List Nat
  chr_data : List Nat
  prg_ram : List Nat
  chr_ram : Bool
  mapper : Nat × Nat × Nat
  loaded : Bool
deriving DecidableEq, Repr

/-- `create_mapper` in mappers.rs, abstracted to its arguments. -/
def create_mapper (mapper_id prg_banks chr_banks : Nat) : Nat × Nat × Nat :=
  (mapper_id, prg_banks, chr_banks)

/-- `Cartridge::new` in cartridge.rs (the initial mapper is
`Mapper0::new(1, 1)`). -/
def Cartridge.new : Cartridge where
  header := { prg_rom_banks := 0, chr_rom_banks := 0, mapper_id := 0,
              mirror_mode := MirrorMode.Horizontal,
              has_battery := false, has_trainer := false }
  prg_rom := []
  chr_data := []
  prg_ram := List.replicate 8192 0
  chr_ram := false
  mapper := create_mapper 0 1 1
  loaded := false

/-- The header check of `Cartridge::load_rom`: too short or wrong
"NES\x1A" magic. -/
def romHeaderBad (data : List Nat) : Prop :=
  data.length < 16 ∨ data.getD 0 0 ≠ 0x4E ∨ data.getD 1 0 ≠ 0x45 ∨
  data.getD 2 0 ≠ 0x53 ∨ data.getD 3 0 ≠ 0x1A

instance (data : List Nat) : Decidable (romHeaderBad data) := by
  unfold romHeaderBad; infer_instance

/-- The header fields `Cartridge::load_rom` parses and assigns. -/
def parseHeader (data : List Nat) : CartridgeHeader :=
  let flags6 := data.getD 6 0
  let flags7 := data.getD 7 0
  { prg_rom_banks := data.getD 4 0
    chr_rom_banks := data.getD 5 0
    mapper_id := (flags7 &&& 0xF0) ||| (flags6 >>> 4)
    mirror_mode := if flags6 &&& 0x08 ≠ 0 then MirrorMode.FourScreen
      else if flags6 &&& 0x01 ≠ 0 then MirrorMode.Vertical
      else MirrorMode.Horizontal
    has_battery := flags6 &&& 0x02 ≠ 0
    has_trainer := flags6 &&& 0x04 ≠ 0 }

/-- The PRG-payload check of `Cartridge::load_rom`:
`offset + prg_size > data.len()` with the trainer skipped. -/
def prgOverflow (data : List Nat) : Prop :=
  (if (parseHeader data).has_trainer then 16 + 512 else 16) +
    (parseHeader data).prg_rom_banks * 16384 > data.length

instance (data : List Nat) : Decidable (prgOverflow data) := by
  unfold prgOverflow; infer_instance

/-- `Cartridge::load_rom` in cartridge.rs.  Returns (success, new
cartridge state); early `return false` paths return the state as
mutated so far.  Incomplete CHR data is zero-filled; `prg_ram` is reset
to 8 KiB of zeroes; mapper 253 with CHR ROM appends 8 KiB of CHR
RAM. -/
def Cartridge.load_rom (c : Cartridge) (data : List Nat) : Bool × Cartridge :=
  if romHeaderBad data then (false, c)
  else
    let header := parseHeader data
    let c1 : Cartridge := { c with header := header }
    let offset := if header.has_trainer then 16 + 512 else 16
    let prg_size := header.prg_rom_banks * 16384
    if offset + prg_size > data.length then (false, c1)
    else
      let c2 : Cartridge := { c1 with prg_rom := (data.drop offset).take prg_size }
      let offset2 := offset + prg_size
      let c3 : Cartridge := if header.chr_rom_banks > 0 then
          let chr_size := header.chr_rom_banks * 8192
          if offset2 + chr_size > data.length then
            let available := data.length - offset2
            { c2 with chr_data := (data.drop offset2).take available ++
                        List.replicate (chr_size - available) 0,
                      chr_ram := false }
          else
            { c2 with chr_data := (data.drop offset2).take chr_size, chr_ram := false }
        else { c2 with chr_data := List.replicate 8192 0, chr_ram := true }
      let c4 : Cartridge :=
        { c3 with
          prg_ram := List.replicate 8192 0
          mapper := create_mapper header.mapper_id header.prg_rom_banks
            header.chr_rom_banks }
      let c5 : Cartridge := if header.mapper_id = 253 ∧ c4.chr_ram = false then
          { c4 with chr_data := c4.chr_data ++ List.replicate 8192 0 }
        else c4
      (true, { c5 with loaded := true })

/-- A 16-byte file with a valid magic claiming one 16 KiB PRG bank but
carrying no PRG payload. -/
def romPrgMissing : List Nat :=
  [0x4E, 0x45, 0x53, 0x1A, 1, 0, 0, 0, 0, 0, 0, 0, 0, 0, 0, 0]

/-! ## Save states (`export_state_binary` / `import_state_binary`,
src/emulator.rs) -/

/-- `Emulator::export_state_binary`: magic "NESW", version byte 1, CPU
registers (PC little-endian), 2 KiB work RAM, the PPU registers (v and
t little-endian, the write latch as a 0/1 byte), nametable RAM,
palette RAM, OAM, then 8 KiB PRG-RAM. -/
def export_state_binary (e : Emulator) : List Nat :=
  [0x4E, 0x45, 0x53, 0x57, 1,
   e.cpu_a, e.cpu_x, e.cpu_y, e.cpu_sp, e.cpu_status,
   e.cpu_pc % 256, e.cpu_pc / 256 % 256]
  ++ e.bus_ram
  ++ [e.ppu_ctrl, e.ppu_mask, e.ppu_status, e.ppu_oam_addr,
      e.ppu_v % 256, e.ppu_v / 256 % 256,
      e.ppu_t % 256, e.ppu_t / 256 % 256,
      e.ppu_fine_x, if e.ppu_write_latch then 1 else 0, e.ppu_data_buffer]
  ++ e.ppu_nametable ++ e.ppu_palette ++ e.ppu_oam ++ e.cart_prg_ram

/-- Outcome of `Emulator::import_state_binary`: either a (success flag,
state after the call) pair, or the Rust out-of-bounds indexing abort
that inputs of exactly 2069 or 2070 bytes trigger (the guard before the
PPU scalars checks 9 remaining bytes but the code reads 11). -/
inductive ImportOutcome where
  | ok : Bool → Emulator → ImportOutcome
  | indexCrash : ImportOutcome
deriving DecidableEq, Repr

/-- `Emulator::import_state_binary`.  Each early `return false` hands
back the state as mutated so far; the byte reads inside a passed length
guard use `getD` (they cannot be out of range), while the two reads the
guard does not cover (indices 2069 and 2070) are modelled with checked
access. -/
def import_state_binary (e : Emulator) (data : List Nat) : ImportOutcome :=
  if data.length < 9 ∨ data.take 4 ≠ [0x4E, 0x45, 0x53, 0x57] ∨ data.getD 4 0 ≠ 1 then
    .ok false e
  else if 5 + 7 > data.length then .ok false e
  else
    let e1 : Emulator := { e with
      cpu_a := data.getD 5 0, cpu_x := data.getD 6 0, cpu_y := data.getD 7 0,
      cpu_sp := data.getD 8 0, cpu_status := data.getD 9 0,
      cpu_pc := data.getD 10 0 + 256 * data.getD 11 0 }
    if 12 + 2048 > data.length then .ok false e1
    else
      let e2 : Emulator := { e1 with bus_ram := (data.drop 12).take 2048 }
      if 2060 + 9 > data.length then .ok false e2
      else
        match data.get? 2069, data.get? 2070 with
        | some wl, some db =>
          let e3 : Emulator := { e2 with
            ppu_ctrl := data.getD 2060 0, ppu_mask := data.getD 2061 0,
            ppu_status := data.getD 2062 0, ppu_oam_addr := data.getD 2063 0,
            ppu_v := data.getD 2064 0 + 256 * data.getD 2065 0,
            ppu_t := data.getD 2066 0 + 256 * data.getD 2067 0,
            ppu_fine_x := data.getD 2068 0,
            ppu_write_latch := wl ≠ 0,
            ppu_data_buffer := db }
          if 2071 + (2048 + 32 + 256) > data.length then .ok false e3
          else
            let e4 : Emulator := { e3 with
              ppu_nametable := (data.drop 2071).take 2048,
              ppu_palette := (data.drop 4119).take 32,
              ppu_oam := (data.drop 4151).take 256 }
            if 4407 + 8192 > data.length then .ok false e4
            else .ok true { e4 with cart_prg_ram := (data.drop 4407).take 8192 }
        | _, _ => .indexCrash

/-- Emulator states as the program maintains them: the fixed-size Rust
arrays have their fixed lengths, and the u16 registers are in range. -/
def EmulatorWF (e : Emulator) : Prop :=
  e.bus_ram.length = 2048 ∧ e.ppu_nametable.length = 2048 ∧
  e.ppu_palette.length = 32 ∧ e.ppu_oam.length = 256 ∧
  e.cart_prg_ram.length = 8192 ∧ e.cpu_pc < 65536 ∧ e.ppu_v < 65536 ∧ e.ppu_t < 65536

/-- A save-state blob with valid magic and version whose payload stops
after the CPU registers: the work-RAM length check fails only after the
CPU registers have been overwritten. -/
def saveTruncated : List Nat :=
  [0x4E, 0x45, 0x53, 0x57, 1, 0x42, 0, 0, 0, 0, 0, 0]

/-! ## Theorems -/

/-! ## Claims C8 and C10 -/

/-- Claim C8: while the strobe is high, every `Controller::read` returns
bit 0 of the button state without shifting; a write whose LSB
transitions from 1 to 0 latches the button state into the shift
register; while strobe is low, each read returns the shift register's
LSB, shifts it right, and fills the vacated MSB with 1.  With exactly
buttons A (0) and Start (3) pressed, writing $01 then $00 and reading
eight times yields the bits 1,0,0,1,0,0,0,0 in order. -/
theorem claim_C8 (c : Controller) :
    (c.strobe = true → c.read = (c.button_state &&& 1, c)) ∧
    (∀ d : Nat, c.strobe = true → d &&& 1 = 0 →
      (c.write d).shift_register = c.button_state ∧ (c.write d).strobe = false) ∧
    (c.strobe = false →
      c.read = (c.shift_register &&& 1,
        { c with shift_register := (c.shift_register >>> 1) ||| 0x80 })) ∧
    ((((Controller.new.set_button 0 true).set_button 3 true).write 1).write 0).reads 8
      = [1, 0, 0, 1, 0, 0, 0, 0] := by
  refine ⟨?_, ?_, ?_, ?_⟩
  · intro h
    simp [Controller.read, h]
  · intro d h hd
    have hd2 : d % 2 = 0 := by simpa [Nat.and_one_is_mod] using hd
    constructor <;> simp [Controller.write, h, hd2]
  · intro h
    simp [Controller.read, h]
  · decide

/-- Witness for C8 at a concrete controller with strobe high. -/
theorem claim_C8_witness :
    Controller.read { button_state := 9, shift_register := 5, strobe := true }
      = (1, { button_state := 9, shift_register := 5, strobe := true }) :=
  (claim_C8 { button_state := 9, shift_register := 5, strobe := true }).1 rfl

/-- Claim C10: calling `Emulator::set_button` with a controller index
other than 0 or 1, or with a button index greater than 7, leaves the
whole emulator state unchanged. -/
theorem claim_C10 (e : Emulator) (controller button : Nat) (pressed : Bool)
    (h : (controller ≠ 0 ∧ controller ≠ 1) ∨ button > 7) :
    e.set_button controller button pressed = e := by
  rcases h with ⟨h0, h1⟩ | hb
  · match controller, h0, h1 with
    | 0, h0, _ => exact absurd rfl h0
    | 1, _, h1 => exact absurd rfl h1
    | n + 2, _, _ => rfl
  · have hc : ∀ c : Controller, c.set_button button pressed = c := by
      intro c
      simp [Controller.set_button, hb]
    match controller with
    | 0 => simp [Emulator.set_button, hc]
    | 1 => simp [Emulator.set_button, hc]
    | n + 2 => rfl

/-- Witness for C10: a concrete out-of-range call is a no-op. -/
theorem claim_C10_witness :
    Emulator.set_button Emulator.new 2 0 true = Emulator.new ∧
    Emulator.set_button Emulator.new 0 8 true = Emulator.new :=
  ⟨claim_C10 Emulator.new 2 0 true (Or.inl (by decide)),
   claim_C10 Emulator.new 0 8 true (Or.inr (by decide))⟩

/-! Helper lemmas for bit-7 reasoning. -/

theorem and128_ne_iff (y : Nat) : (y &&& 128 ≠ 0) ↔ y.testBit 7 = true := by
  have h : y &&& 128 = (y.testBit 7).toNat * 128 := by
    have h2 := Nat.and_two_pow y 7
    norm_num at h2
    exact h2
  rw [h]; cases y.testBit 7 <;> simp

set_option maxRecDepth 10000 in
theorem xor255_eq_sub : ∀ m < 256, m ^^^ 255 = 255 - m := by decide

theorem bit7_eq_of_mod256 {x y : Nat} (h : x % 256 = y % 256) :
    x.testBit 7 = y.testBit 7 := by
  have h2 : (2 : Nat) ^ 7 = 128 := by norm_num
  rw [Nat.testBit_to_div_mod, Nat.testBit_to_div_mod, h2]
  have hiff : x / 128 % 2 = 1 ↔ y / 128 % 2 = 1 := by omega
  simp [hiff]

theorem bit7_mod256 (x : Nat) : (x % 256).testBit 7 = x.testBit 7 :=
  bit7_eq_of_mod256 (Nat.mod_mod_of_dvd x (by norm_num))

theorem bit7_xor255 (m : Nat) : (m ^^^ 255).testBit 7 = !(m.testBit 7) := by
  rw [Nat.testBit_xor]
  have h255 : (255 : Nat).testBit 7 = true := by decide
  simp [h255]

/-- Core agreement between the three 8-bit arithmetic paths: the result
byte, the carry condition and both overflow conditions of `op_sbc`
coincide with those of ADC on the ones-complement operand. -/
theorem sbc_core_eq (a m c : Nat) (ha : a < 256) (hm : m < 256) (hc : c ≤ 1) :
    wsub16 (wsub16 a m) (1 - c) % 256 = (a + (m ^^^ 255) + c) % 256 ∧
    ((wsub16 (wsub16 a m) (1 - c) < 256) ↔ (a + (m ^^^ 255) + c > 255)) ∧
    (((a ^^^ wsub16 (wsub16 a m) (1 - c)) &&& (a ^^^ m) &&& 128 ≠ 0) ↔
      ((a ^^^ (a + (m ^^^ 255) + c)) &&& ((m ^^^ 255) ^^^ (a + (m ^^^ 255) + c)) &&& 128 ≠ 0)) ∧
    (((a ^^^ wsub16 (wsub16 a m) (1 - c)) &&& (a ^^^ m) &&& 128 ≠ 0) ↔
      ((((a ^^^ (m ^^^ 255)) ^^^ 255) &&& (a ^^^ ((a + (m ^^^ 255) + c) % 256))) &&& 128 ≠ 0)) := by
  have hx : m ^^^ 255 = 255 - m := xor255_eq_sub m hm
  have hmod : wsub16 (wsub16 a m) (1 - c) % 256 = (a + (m ^^^ 255) + c) % 256 := by
    simp only [wsub16, hx]; omega
  have hcar : (wsub16 (wsub16 a m) (1 - c) < 256) ↔ (a + (m ^^^ 255) + c > 255) := by
    simp only [wsub16, hx]; omega
  have hbr : (wsub16 (wsub16 a m) (1 - c)).testBit 7 = (a + (m ^^^ 255) + c).testBit 7 :=
    bit7_eq_of_mod256 hmod
  have h255 : (255 : Nat).testBit 7 = true := by decide
  refine ⟨hmod, hcar, ?_, ?_⟩
  · rw [and128_ne_iff, and128_ne_iff]
    simp only [Nat.testBit_and, Nat.testBit_xor, hbr, bit7_xor255, h255]
    cases a.testBit 7 <;> cases m.testBit 7 <;> cases (a + (m ^^^ 255) + c).testBit 7 <;> simp
  · rw [and128_ne_iff, and128_ne_iff]
    simp only [Nat.testBit_and, Nat.testBit_xor, bit7_mod256, hbr, bit7_xor255, h255]
    cases a.testBit 7 <;> cases m.testBit 7 <;> cases (a + (m ^^^ 255) + c).testBit 7 <;> simp

/-- Claim C6: for every accumulator value, operand, carry-in and status
byte, the direct-subtraction `Emulator::op_sbc` produces exactly the
same accumulator and status byte (hence the same carry, overflow, zero
and negative flags) as `Emulator::op_adc` applied to the operand's
ones-complement, and it also agrees with `Cpu::sbc` (which is
`Cpu::adc_value` of the ones-complement). -/
theorem claim_C6 (a s m : Nat) (ha : a < 256) (hm : m < 256) :
    op_sbc a s m = op_adc a s (m ^^^ 255) ∧ op_sbc a s m = cpu_sbc a s m := by
  have hc : (if s &&& 1 ≠ 0 then (1 : Nat) else 0) ≤ 1 := by
    split <;> omega
  obtain ⟨hmod, hcar, hov1, hov2⟩ :=
    sbc_core_eq a m (if s &&& 1 ≠ 0 then 1 else 0) ha hm hc
  constructor
  · simp only [op_sbc, op_adc]
    rw [hmod, decide_eq_decide.mpr hcar, decide_eq_decide.mpr hov1]
  · simp only [op_sbc, cpu_sbc, adc_value]
    rw [hmod, decide_eq_decide.mpr hcar, decide_eq_decide.mpr hov2]

/-- Witness for C6 at a = 0x50, m = 0x10, status with carry set. -/
theorem claim_C6_witness :
    op_sbc 0x50 0x01 0x10 = op_adc 0x50 0x01 (0x10 ^^^ 255) ∧
    op_sbc 0x50 0x01 0x10 = cpu_sbc 0x50 0x01 0x10 :=
  claim_C6 0x50 0x01 0x10 (by decide) (by decide)

/-- Counterexample to C5 as stated: `pulseDividerOne` satisfies all
four stated conditions (enabled, shift > 0, period ≥ 8, target ≤ $7FF),
yet `clock_sweep` does not write the target back because the sweep
divider is nonzero — the four conditions do not suffice. -/
theorem claim_C5_counterexample :
    pulseDividerOne.sweep_enabled = true ∧
    pulseDividerOne.sweep_shift > 0 ∧
    pulseDividerOne.timer_period ≥ 8 ∧
    pulseDividerOne.sweep_target_period ≤ 0x7FF ∧
    pulseDividerOne.sweep_target_period ≠ pulseDividerOne.timer_period ∧
    (PulseChannel.clock_sweep pulseDividerOne).timer_period = pulseDividerOne.timer_period := by
  decide

/-- Claim C5 (amended): on a half-frame clock the pulse channel's timer
period is updated to the computed target exactly when, in addition to
the four stated conditions (sweep enabled, shift > 0, period ≥ 8,
target ≤ $7FF), the sweep divider is 0 on that half-frame; otherwise
the period is left unchanged. -/
theorem claim_C5_amended (p : PulseChannel) :
    (p.clock_sweep).timer_period =
      if p.sweep_divider = 0 ∧ p.sweep_enabled ∧ p.sweep_shift > 0 ∧
         p.timer_period ≥ 8 ∧ p.sweep_target_period ≤ 0x7FF
      then p.sweep_target_period
      else p.timer_period := by
  simp only [PulseChannel.clock_sweep]
  split_ifs <;> simp_all

/-- `fetch_dmc_sample` never changes the output level. -/
theorem fetch_dmc_sample_output (st : ApuDmc) :
    st.fetch_dmc_sample.dmc.output_level = st.dmc.output_level := by
  unfold ApuDmc.fetch_dmc_sample
  split
  · simp only []
    split
    · split
      · simp [DmcChannel.restart]
      · split <;> rfl
    · rfl
  · rfl

/-- One `clock_dmc` step keeps the output level within [0, 127]. -/
theorem clock_dmc_output_le (st : ApuDmc) (h : st.dmc.output_level ≤ 127) :
    st.clock_dmc.dmc.output_level ≤ 127 := by
  unfold ApuDmc.clock_dmc
  by_cases h0 : st.dmc.timer_value = 0
  · simp only [h0, if_true, if_pos]
    set d1 := if ¬st.dmc.silence = true then
        if st.dmc.shift_register &&& 1 ≠ 0 then
          if st.dmc.output_level ≤ 125 then
            { st.dmc with timer_value := st.dmc.timer_period,
                          output_level := st.dmc.output_level + 2 }
          else { st.dmc with timer_value := st.dmc.timer_period }
        else if st.dmc.output_level ≥ 2 then
          { st.dmc with timer_value := st.dmc.timer_period,
                        output_level := st.dmc.output_level - 2 }
        else { st.dmc with timer_value := st.dmc.timer_period }
      else { st.dmc with timer_value := st.dmc.timer_period } with hd1
    have hlevel : d1.output_level ≤ 127 := by
      rw [hd1]
      split
      · split
        · split
          · simp; omega
          · simpa using h
        · split
          · simp; omega
          · simpa using h
      · simpa using h
    split
    · split
      · simpa using hlevel
      · rw [fetch_dmc_sample_output]
        simpa using hlevel
    · simpa using hlevel
  · simpa [h0] using h

/-- Claim C9: in every APU state reachable from power-on by register
writes and clock ticks, the DMC output level lies in [0, 127]:
construction initializes it to 0, the $4011 direct load masks to 7
bits, and each DMC timer fire moves the level by at most ±2 without
leaving the range. -/
theorem claim_C9 (st : ApuDmc) (h : DmcReach st) : st.dmc.output_level ≤ 127 := by
  induction h with
  | init => exact Nat.zero_le 127
  | write_ctrl data _ ih => simpa [DmcChannel.write_ctrl] using ih
  | write_direct_load data _ ih =>
      simpa [DmcChannel.write_direct_load] using Nat.and_le_right
  | write_sample_addr data _ ih => simpa [DmcChannel.write_sample_addr] using ih
  | write_sample_length data _ ih => simpa [DmcChannel.write_sample_length] using ih
  | write_status data _ ih =>
      unfold ApuDmc.write_status
      simp only []
      split
      · split <;> simpa [DmcChannel.restart] using ih
      · simpa using ih
  | clock _ ih => exact clock_dmc_output_le _ ih
  | provide data _ ih => simpa [ApuDmc.dmc_provide_sample] using ih
  | reset _ _ => exact Nat.zero_le 127

/-- Witness for C9: the power-on state is reachable and satisfies the
bound, as does the state after a $4011 write of $FF. -/
theorem claim_C9_witness :
    ((⟨DmcChannel.new, none⟩ : ApuDmc).dmc.output_level ≤ 127) ∧
    (({ dmc := DmcChannel.new.write_direct_load 0xFF,
        dmc_read_request := none } : ApuDmc).dmc.output_level ≤ 127) :=
  ⟨claim_C9 _ DmcReach.init,
   claim_C9 _ (DmcReach.write_direct_load 0xFF DmcReach.init)⟩

/-- Counterexample to C3 as stated: on a third master tick with a
pending NMI latch, the CPU step happens BEFORE the NMI latch is routed
to the CPU (and the scanline signal and mapper resync also come after
the CPU/APU block), contradicting the claimed
PPU → NMI → scanline → resync → CPU → APU → ... order. -/
theorem claim_C3_counterexample :
    ¬ precedes Event.nmiRoute Event.cpuStep
        (clockEvents 0 false true true true true true) ∧
    ¬ precedes Event.scanlineSignal Event.cpuStep
        (clockEvents 0 false true true true true true) ∧
    ¬ precedes Event.mapperResync Event.apuClock
        (clockEvents 0 false true true true true true) := by
  refine ⟨?_, ?_, ?_⟩ <;> decide

/-- Claim C3 (amended): within every master tick of `Emulator::clock`
the effects happen in this order: the PPU pixel clock first, then (on
every third tick) the CPU-or-DMA step followed by the APU step, the
DMC-fetch service, the APU-IRQ routing and the mapper CPU-clock, THEN
the PPU NMI latch is routed to the CPU, then the scanline signal is
delivered to the mapper followed by the mapper resync, and finally the
mapper IRQ is routed to the CPU. -/
theorem claim_C3_amended (system_clock : Nat)
    (dma_transfer dmc_request apu_irq nmi_check scanline_irq mapper_irq : Bool) :
    clockTraceOrdered (clockEvents system_clock dma_transfer dmc_request apu_irq
      nmi_check scanline_irq mapper_irq) := by
  by_cases h3 : system_clock % 3 = 0 <;>
    cases dma_transfer <;> cases dmc_request <;> cases apu_irq <;>
    cases nmi_check <;> cases scanline_irq <;> cases mapper_irq <;>
    · simp only [clockEvents, h3, if_true, if_false, reduceIte]
      decide

/-- Counterexample to C4 as stated: at scanline 0 with 8-pixel
sprites, OAM entry 0 with Y = 1 has [1, 9) containing the NEXT scanline
1, so the claim selects it (and sets the sprite-zero flag) — but the
code compares against the CURRENT scanline and selects nothing, leaving
the sprite-zero flag clear. -/
theorem claim_C4_counterexample :
    claimedSelection 0 0 oamEntry0AtOne = [0] ∧
    (evaluate_sprites 0 0 oamEntry0AtOne).selected = [] ∧
    (evaluate_sprites 0 0 oamEntry0AtOne).sprite_zero_hit_possible = false := by
  refine ⟨?_, ?_, ?_⟩ <;> decide

/-- The scan loop takes exactly the first `8 - count` in-range indices
of its worklist. -/
theorem evalAux_selected (scanline h : Int) (oam : List Nat) :
    ∀ (idxs : List Nat) (count : Nat) (zero : Bool), count ≤ 8 →
      (evalAux scanline h oam idxs count zero).selected =
        (idxs.filter fun i => spriteInRange scanline h (oam.getD (i * 4) 0)).take (8 - count) := by
  intro idxs
  induction idxs with
  | nil => intro count zero _; simp [evalAux]
  | cons i rest ih =>
    intro count zero hcount
    by_cases hin : spriteInRange scanline h (oam.getD (i * 4) 0)
    · by_cases hc : count < 8
      · have h8 : 8 - count = (8 - (count + 1)) + 1 := by omega
        simp [evalAux, hin, hc, ih (count + 1) _ (by omega), h8,
              -List.getD_eq_getElem?_getD]
      · have hc8 : count = 8 := by omega
        simp [evalAux, hin, hc, hc8, -List.getD_eq_getElem?_getD]
    · simp [evalAux, hin, ih count zero hcount, -List.getD_eq_getElem?_getD]

/-- If index 0 is not on the worklist, the scan loop never changes the
sprite-zero flag. -/
theorem evalAux_zero_of_not_mem (scanline h : Int) (oam : List Nat) :
    ∀ (idxs : List Nat) (count : Nat) (zero : Bool), 0 ∉ idxs →
      (evalAux scanline h oam idxs count zero).sprite_zero_hit_possible = zero := by
  intro idxs
  induction idxs with
  | nil => intro count zero _; simp [evalAux]
  | cons i rest ih =>
    intro count zero hmem
    have hi : i ≠ 0 := fun h0 => hmem (h0 ▸ List.mem_cons_self i rest)
    have hrest : 0 ∉ rest := fun h0 => hmem (List.mem_cons_of_mem i h0)
    by_cases hin : spriteInRange scanline h (oam.getD (i * 4) 0)
    · by_cases hc : count < 8
      · simp [evalAux, hin, hc, hi, ih _ _ hrest, -List.getD_eq_getElem?_getD]
      · simp [evalAux, hin, hc, -List.getD_eq_getElem?_getD]
    · simp [evalAux, hin, ih _ _ hrest, -List.getD_eq_getElem?_getD]

/-- When index 0 heads the worklist and appears nowhere else, the
resulting sprite-zero flag is exactly the in-range test of entry 0. -/
theorem evalAux_zero_head (scanline h : Int) (oam : List Nat) (rest : List Nat)
    (hrest : 0 ∉ rest) :
    (evalAux scanline h oam (0 :: rest) 0 false).sprite_zero_hit_possible =
      spriteInRange scanline h (oam.getD 0 0) := by
  have h0 : (0 : Nat) * 4 = 0 := rfl
  by_cases hin : spriteInRange scanline h (oam.getD 0 0)
  · simp only [evalAux, h0, hin, if_true, reduceIte, Nat.zero_lt_succ]
    simp [evalAux_zero_of_not_mem _ _ oam _ _ _ hrest, hin,
          -List.getD_eq_getElem?_getD]
  · simp only [evalAux, h0, hin]
    simp [evalAux_zero_of_not_mem _ _ oam _ _ _ hrest, hin,
          -List.getD_eq_getElem?_getD]

/-- Claim C4 (amended): at dot 257 the evaluation selects, scanning the
64 OAM entries top-to-bottom and keeping at most 8, exactly those
sprites whose Y range [Y, Y+height) contains the CURRENT scanline (the
sprites then appear on the following scanline); the sprite-zero flag
records whether OAM entry 0 is among them. -/
theorem claim_C4_amended (scanline : Int) (ctrl : Nat) (oam : List Nat) :
    (evaluate_sprites scanline ctrl oam).selected =
      ((List.range 64).filter fun i =>
        spriteInRange scanline (if ctrl &&& 0x20 ≠ 0 then 16 else 8)
          (oam.getD (i * 4) 0)).take 8 ∧
    (evaluate_sprites scanline ctrl oam).sprite_zero_hit_possible =
      spriteInRange scanline (if ctrl &&& 0x20 ≠ 0 then 16 else 8) (oam.getD 0 0) := by
  constructor
  · exact evalAux_selected scanline _ oam (List.range 64) 0 false (by omega)
  · have hrange : List.range 64 = 0 :: List.map Nat.succ (List.range 63) := by
      rw [List.range_succ_eq_map]
    have hnot : (0 : Nat) ∉ List.map Nat.succ (List.range 63) := by
      simp
    unfold evaluate_sprites
    rw [hrange]
    exact evalAux_zero_head scanline _ oam _ hnot

/-- Counterexample to C2 as stated: loading `romPrgMissing` into a
fresh cartridge fails (PRG payload missing), but the parsed header has
already been overwritten — the prior header said 0 PRG banks, the
post-call header says 1. -/
theorem claim_C2_counterexample :
    (Cartridge.new.load_rom romPrgMissing).1 = false ∧
    (Cartridge.new.load_rom romPrgMissing).2.header.prg_rom_banks = 1 ∧
    Cartridge.new.header.prg_rom_banks = 0 := by
  refine ⟨?_, ?_, ?_⟩ <;> decide

/-- Claim C2 (amended): `load_rom` returns false exactly on the inputs
the claim lists (shorter than 16 bytes, wrong magic, or PRG payload
extending past the end of the file).  On a short/bad-magic input the
cartridge is completely unchanged; on a PRG-overflow input everything
is unchanged EXCEPT the parsed header, which has already been
overwritten with the new file's header fields. -/
theorem claim_C2_amended (c : Cartridge) (data : List Nat) :
    (romHeaderBad data → c.load_rom data = (false, c)) ∧
    (¬ romHeaderBad data → prgOverflow data →
      c.load_rom data = (false, { c with header := parseHeader data })) ∧
    ((c.load_rom data).1 = false ↔ (romHeaderBad data ∨ prgOverflow data)) := by
  refine ⟨?_, ?_, ?_⟩
  · intro hbad
    simp [Cartridge.load_rom, hbad]
  · intro hok hov
    simp only [Cartridge.load_rom]
    rw [if_neg hok, if_pos]
    · exact hov
  · simp only [Cartridge.load_rom]
    by_cases hbad : romHeaderBad data
    · simp [hbad]
    · rw [if_neg hbad]
      simp only [hbad, false_or]
      by_cases hov : prgOverflow data
      · rw [if_pos]
        · simpa using hov
        · exact hov
      · rw [if_neg]
        · simpa using hov
        · exact hov

/-- Witness for C2 (amended) at a concrete rejected input: a 3-byte
file leaves a fresh cartridge untouched. -/
theorem claim_C2_amended_witness :
    Cartridge.new.load_rom [1, 2, 3] = (false, Cartridge.new) :=
  (claim_C2_amended Cartridge.new [1, 2, 3]).1 (by decide)

/-- Counterexample to C1 as stated: importing `saveTruncated` (a
size-underflow input: too short for the RAM section) into a fresh
emulator returns false, but the CPU registers have already been
overwritten — A is now $42 and SP/status were zeroed, so the state is
not as it was before the call. -/
theorem claim_C1_counterexample :
    import_state_binary Emulator.new saveTruncated
      = ImportOutcome.ok false
          { Emulator.new with cpu_a := 0x42, cpu_sp := 0, cpu_status := 0 } ∧
    ({ Emulator.new with cpu_a := 0x42, cpu_sp := 0, cpu_status := 0 } : Emulator).cpu_a
      ≠ Emulator.new.cpu_a := by
  constructor
  · rfl
  · decide

/-- Claim C1 (amended): `import_state_binary` returns false and leaves
the state exactly untouched when the header check fails (length < 9,
magic not "NESW", or version byte not 1).  On any size underflow (an
input shorter than the full 12599-byte payload) the import never
succeeds: it returns false, except for valid-header inputs of exactly
2069 or 2070 bytes, where the guard before the PPU scalars checks too
few bytes and the code aborts on an out-of-bounds index instead of
returning.  A failing import whose header checks passed may leave the
already-parsed sections overwritten. -/
theorem claim_C1_amended (e : Emulator) (data : List Nat) :
    ((data.length < 9 ∨ data.take 4 ≠ [0x4E, 0x45, 0x53, 0x57] ∨ data.getD 4 0 ≠ 1) →
      import_state_binary e data = ImportOutcome.ok false e) ∧
    (import_state_binary e data = ImportOutcome.indexCrash ↔
      (¬(data.length < 9 ∨ data.take 4 ≠ [0x4E, 0x45, 0x53, 0x57] ∨ data.getD 4 0 ≠ 1) ∧
        (data.length = 2069 ∨ data.length = 2070))) ∧
    (data.length < 12599 →
      import_state_binary e data = ImportOutcome.indexCrash ∨
      ∃ e' : Emulator, import_state_binary e data = ImportOutcome.ok false e') ∧
    (∀ e' : Emulator, import_state_binary e data = ImportOutcome.ok true e' →
      12599 ≤ data.length) := by
  have hTrue : ∀ e' : Emulator,
      import_state_binary e data = ImportOutcome.ok true e' → 12599 ≤ data.length := by
    intro e' himp
    unfold import_state_binary at himp
    split at himp
    · simp at himp
    · split at himp
      · simp at himp
      · split at himp
        · simp at himp
        · split at himp
          · simp at himp
          · split at himp
            · split at himp
              · simp at himp
              · split at himp
                · simp at himp
                · omega
            · simp at himp
  refine ⟨?_, ?_, ?_, hTrue⟩
  · intro hbad
    simp only [import_state_binary]
    rw [if_pos hbad]
  · by_cases hbad : data.length < 9 ∨ data.take 4 ≠ [0x4E, 0x45, 0x53, 0x57] ∨
        data.getD 4 0 ≠ 1
    · simp only [import_state_binary]
      rw [if_pos hbad]
      constructor
      · intro h
        simp at h
      · rintro ⟨hnb, -⟩
        exact absurd hbad hnb
    · simp only [import_state_binary]
      rw [if_neg hbad]
      have hok := hbad
      push_neg at hok
      obtain ⟨h9, hm, hv⟩ := hok
      by_cases h12 : 5 + 7 > data.length
      · rw [if_pos h12]
        constructor
        · intro h
          simp at h
        · rintro ⟨-, hl⟩
          omega
      · rw [if_neg h12]
        by_cases h2060 : 12 + 2048 > data.length
        · rw [if_pos h2060]
          constructor
          · intro h
            simp at h
          · rintro ⟨-, hl⟩
            omega
        · rw [if_neg h2060]
          by_cases h2069 : 2060 + 9 > data.length
          · rw [if_pos h2069]
            constructor
            · intro h
              simp at h
            · rintro ⟨-, hl⟩
              omega
          · rw [if_neg h2069]
            by_cases hA : data.length = 2069
            · have h69 : data.get? 2069 = none := by
                rw [List.get?_eq_getElem?]
                exact List.getElem?_eq_none (by omega)
              rw [h69]
              constructor
              · intro _
                exact ⟨hbad, Or.inl hA⟩
              · intro _
                rfl
            · by_cases hB : data.length = 2070
              · obtain ⟨w69, h69⟩ : ∃ w, data.get? 2069 = some w :=
                  ⟨_, by rw [List.get?_eq_getElem?]; exact List.getElem?_eq_getElem (by omega)⟩
                have h70 : data.get? 2070 = none := by
                  rw [List.get?_eq_getElem?]
                  exact List.getElem?_eq_none (by omega)
                rw [h69, h70]
                constructor
                · intro _
                  exact ⟨hbad, Or.inr hB⟩
                · intro _
                  rfl
              · obtain ⟨w69, h69⟩ : ∃ w, data.get? 2069 = some w :=
                  ⟨_, by rw [List.get?_eq_getElem?]; exact List.getElem?_eq_getElem (by omega)⟩
                obtain ⟨w70, h70⟩ : ∃ w, data.get? 2070 = some w :=
                  ⟨_, by rw [List.get?_eq_getElem?]; exact List.getElem?_eq_getElem (by omega)⟩
                rw [h69, h70]
                simp only []
                constructor
                · intro h
                  split_ifs at h
                · rintro ⟨-, hl⟩
                  omega
  · intro hlt
    cases hres : import_state_binary e data with
    | indexCrash => exact Or.inl rfl
    | ok b e' =>
      cases b with
      | true => exact absurd (hTrue e' hres) (by omega)
      | false => exact Or.inr ⟨e', rfl⟩

/-- Witness for C1 (amended) at concrete inputs: a bad-magic input
leaves a fresh emulator untouched, and the truncated valid-header blob
is a size underflow on which the import does not succeed. -/
theorem claim_C1_amended_witness :
    import_state_binary Emulator.new [1, 2, 3] = ImportOutcome.ok false Emulator.new ∧
    (import_state_binary Emulator.new saveTruncated = ImportOutcome.indexCrash ∨
      ∃ e' : Emulator,
        import_state_binary Emulator.new saveTruncated = ImportOutcome.ok false e') :=
  ⟨(claim_C1_amended Emulator.new [1, 2, 3]).1 (Or.inl (by decide)),
   (claim_C1_amended Emulator.new saveTruncated).2.2.1 (by decide)⟩

set_option maxHeartbeats 2000000 in
/-- Claim C7: importing the binary export of any well-formed emulator
state succeeds and restores exactly that state:
`import(export(S)) == S`. -/
theorem claim_C7 (e : Emulator) (hwf : EmulatorWF e) :
    import_state_binary e (export_state_binary e) = ImportOutcome.ok true e := by
  obtain ⟨a, x, y, sp, st, pc, ram, pctrl, pmask, pstat, poam, v, t, fx, wl, db,
          nt, pal, oam, prg, k1, k2⟩ := e
  obtain ⟨hram, hnt, hpal, hoam, hprg, hpc, hv, ht⟩ := hwf
  dsimp only at hram hnt hpal hoam hprg hpc hv ht
  set D := export_state_binary
    ⟨a, x, y, sp, st, pc, ram, pctrl, pmask, pstat, poam, v, t, fx, wl, db,
     nt, pal, oam, prg, k1, k2⟩ with hD
  have hlen : D.length = 12599 := by
    simp [hD, export_state_binary, hram, hnt, hpal, hoam, hprg]
  have f5 : D.getD 5 0 = a := by
    simp [hD, export_state_binary, List.getD_eq_getElem?_getD, List.getElem?_append]
  have f2060 : D.getD 2060 0 = pctrl := by
    simp [hD, export_state_binary, List.getD_eq_getElem?_getD, List.getElem?_append,
          List.getElem_append_right, hram]
  have fTake : D.take 4 = [0x4E, 0x45, 0x53, 0x57] := by
    simp [hD, export_state_binary, List.take_append_eq_append_take]
  have f4 : D.getD 4 0 = 1 := by
    simp [hD, export_state_binary, List.getD_eq_getElem?_getD, List.getElem?_append]
  have f6 : D.getD 6 0 = x := by
    simp [hD, export_state_binary, List.getD_eq_getElem?_getD, List.getElem?_append]
  have f7 : D.getD 7 0 = y := by
    simp [hD, export_state_binary, List.getD_eq_getElem?_getD, List.getElem?_append]
  have f8 : D.getD 8 0 = sp := by
    simp [hD, export_state_binary, List.getD_eq_getElem?_getD, List.getElem?_append]
  have f9 : D.getD 9 0 = st := by
    simp [hD, export_state_binary, List.getD_eq_getElem?_getD, List.getElem?_append]
  have f10 : D.getD 10 0 = pc % 256 := by
    simp [hD, export_state_binary, List.getD_eq_getElem?_getD, List.getElem?_append]
  have f11 : D.getD 11 0 = pc / 256 % 256 := by
    simp [hD, export_state_binary, List.getD_eq_getElem?_getD, List.getElem?_append]
  have f2061 : D.getD 2061 0 = pmask := by
    simp [hD, export_state_binary, List.getD_eq_getElem?_getD, List.getElem?_append,
          List.getElem_append_right, hram]
  have f2062 : D.getD 2062 0 = pstat := by
    simp [hD, export_state_binary, List.getD_eq_getElem?_getD, List.getElem?_append,
          List.getElem_append_right, hram]
  have f2063 : D.getD 2063 0 = poam := by
    simp [hD, export_state_binary, List.getD_eq_getElem?_getD, List.getElem?_append,
          List.getElem_append_right, hram]
  have f2064 : D.getD 2064 0 = v % 256 := by
    simp [hD, export_state_binary, List.getD_eq_getElem?_getD, List.getElem?_append,
          List.getElem_append_right, hram]
  have f2065 : D.getD 2065 0 = v / 256 % 256 := by
    simp [hD, export_state_binary, List.getD_eq_getElem?_getD, List.getElem?_append,
          List.getElem_append_right, hram]
  have f2066 : D.getD 2066 0 = t % 256 := by
    simp [hD, export_state_binary, List.getD_eq_getElem?_getD, List.getElem?_append,
          List.getElem_append_right, hram]
  have f2067 : D.getD 2067 0 = t / 256 % 256 := by
    simp [hD, export_state_binary, List.getD_eq_getElem?_getD, List.getElem?_append,
          List.getElem_append_right, hram]
  have f2068 : D.getD 2068 0 = fx := by
    simp [hD, export_state_binary, List.getD_eq_getElem?_getD, List.getElem?_append,
          List.getElem_append_right, hram]
  have f2069 : D.get? 2069 = some (if wl then 1 else 0) := by
    simp [hD, export_state_binary, List.get?_eq_getElem?, List.getElem?_append, hram]
  have f2070 : D.get? 2070 = some db := by
    simp [hD, export_state_binary, List.get?_eq_getElem?, List.getElem?_append, hram]
  have s12 : (D.drop 12).take 2048 = ram := by
    simp [hD, export_state_binary, List.drop_append_eq_append_drop,
          List.take_append_eq_append_take, hram]
  have s2071 : (D.drop 2071).take 2048 = nt := by
    simp [hD, export_state_binary, List.drop_append_eq_append_drop,
          List.take_append_eq_append_take, List.drop_eq_nil_of_le,
          hram, hnt]
  have s4119 : (D.drop 4119).take 32 = pal := by
    simp [hD, export_state_binary, List.drop_append_eq_append_drop,
          List.take_append_eq_append_take, List.drop_eq_nil_of_le,
          hram, hnt, hpal]
  have s4151 : (D.drop 4151).take 256 = oam := by
    simp [hD, export_state_binary, List.drop_append_eq_append_drop,
          List.take_append_eq_append_take, List.drop_eq_nil_of_le,
          hram, hnt, hpal, hoam]
  have s4407 : (D.drop 4407).take 8192 = prg := by
    simp [hD, export_state_binary, List.drop_append_eq_append_drop,
          List.take_append_eq_append_take, List.drop_eq_nil_of_le,
          hram, hnt, hpal, hoam, hprg]
  have gpc : pc % 256 + 256 * (pc / 256 % 256) = pc := by omega
  have gv : v % 256 + 256 * (v / 256 % 256) = v := by omega
  have gt : t % 256 + 256 * (t / 256 % 256) = t := by omega
  have gwl : (decide ((if wl = true then (1 : Nat) else 0) ≠ 0)) = wl := by
    cases wl <;> simp
  simp only [import_state_binary, hlen, fTake, f4, f5, f6, f7, f8, f9, f10, f11,
             f2060, f2061, f2062, f2063, f2064, f2065, f2066, f2067, f2068,
             f2069, f2070, s12, s2071, s4119, s4151, s4407]
  simp [gpc, gv, gt, gwl]

/-- Witness for C7 at the freshly constructed emulator. -/
theorem claim_C7_witness :
    import_state_binary Emulator.new (export_state_binary Emulator.new)
      = ImportOutcome.ok true Emulator.new :=
  claim_C7 Emulator.new
    ⟨List.length_replicate 2048 0, List.length_replicate 2048 0,
     List.length_replicate 32 0, List.length_replicate 256 0,
     List.length_replicate 8192 0, by decide, by decide, by decide⟩

end NES
